import Mathlib

/-!
Shallow embedding of `aleph/model/export.py` (the `Export` model: an export
lifecycle manager over a content-addressed blob store).

Modelling conventions:
- The SQLAlchemy table of `Export` rows is an explicit `List Export` passed to
  the query helpers (`Export.all()` in the source).
- `datetime` values are integers (e.g. seconds since an epoch); `timedelta`
  values are integers of the same unit.  Python truthiness of a `timedelta`
  (`expires_after or DEFAULT_EXPIRATION`) is falsity exactly at zero.
- Nullable columns are `Option`; the transient `_file_path` attribute is an
  `Option String` that is `none` until `set_filepath` runs.
- The content store (`archive` from `aleph.core`, external to this file) is a
  state `Archive`: the set of published `(namespace, filename)` blobs plus a
  log of `delete_publication` calls, so that "physically deletes" is visible
  in the state.  A store failure during `archive.publish` is injected as an
  explicit `Option PyErr` argument to `Export.publish`.
- Python exceptions are the `PyErr` type; a function that can raise returns
  the mutated state together with an `Option PyErr` (the raised error), since
  in Python the mutations performed before the raise survive it.
-/

namespace Aleph

/-- A raised Python exception: its class and message. -/
inductive PyErr where
  | runtimeError (msg : String)
  | typeError (msg : String)
  | storeError (msg : String)
deriving DecidableEq, Repr

/-- The in-memory file system: a map from path to file bytes. -/
structure FileSystem where
  files : List (String × List Nat)
deriving DecidableEq, Repr

def FileSystem.lookup (fs : FileSystem) (path : String) : Option (List Nat) :=
  (fs.files.find? (fun f => f.1 = path)).map (fun f => f.2)

/-- Modelled from the spec: `checksum(path) → hash` from the content store
adapter (`servicelayer.archive.util.checksum`, outside this repository) is "a
deterministic content hash of a local file"; modelled as a deterministic
function of the file bytes. -/
def checksum (contents : List Nat) : String :=
  "hash:" ++ String.intercalate "," (contents.map (fun b => toString b))

/-- Modelled from the spec: `safe_filename` (from `normality`, outside this
repository) derives "a filesystem-safe display name" from a path; modelled as
the final path component. -/
def safe_filename (path : String) : String :=
  (path.splitOn "/").getLastD path

/-- Modelled from the spec: `make_key` (from `servicelayer.cache`, outside
this repository) joins the non-null parts with ":". -/
def make_key (parts : List (Option String)) : String :=
  String.intercalate ":" (parts.filterMap id)

/-- The content store (`archive`): published blobs keyed by
`(namespace, filename)`, plus the log of `delete_publication` calls made. -/
structure Archive where
  blobs : List (String × String) := []
  delete_calls : List (String × Option String) := []
deriving DecidableEq, Repr

/-- Modelled from the spec: `publish(namespace, path, mimeType)` "uploads/
moves the blob into the store under key (namespace, filename-derived-from-
path)"; storing an already-present key again is a no-op (content-addressed
store). -/
def Archive.publish (ar : Archive) (ns : String) (filename : String)
    (_mime_type : Option String) : Archive :=
  if (ns, filename) ∈ ar.blobs then ar
  else { ar with blobs := ar.blobs ++ [(ns, filename)] }

/-- Modelled from the spec: `deletePublication(namespace, contentHash)`
"removes the blob at that namespace+hash key"; the call is also logged. -/
def Archive.delete_publication (ar : Archive) (ns : String)
    (ch : Option String) : Archive :=
  { blobs := ar.blobs.filter (fun b => !(b.1 = ns ∧ some b.2 = ch)),
    delete_calls := ar.delete_calls ++ [(ns, ch)] }

/-- A Python value appearing in the `to_dict` serialization. -/
inductive PyValue where
  | none
  | str (s : String)
  | int (n : Int)
  | bool (b : Bool)
  | dict (m : List (String × String))
deriving DecidableEq, Repr

/-- A Python dict as an insertion-ordered association list. -/
abbrev PyDict := List (String × PyValue)

/-- `d[k] = v`: replace in place when the key exists, else append. -/
def dset (d : PyDict) (k : String) (v : PyValue) : PyDict :=
  if d.any (fun kv => kv.1 = k) then
    d.map (fun kv => if kv.1 = k then (k, v) else kv)
  else d ++ [(k, v)]

/-- `d.get(k)`. -/
def dget (d : PyDict) (k : String) : Option PyValue :=
  (d.find? (fun kv => kv.1 = k)).map (fun kv => kv.2)

/-- `normality.stringify` on a nullable integer: `None` stays null, anything
else becomes its string form. -/
def stringify_opt_nat : Option Nat → PyValue
  | Option.none => PyValue.none
  | some n => PyValue.str (toString n)

/-- A nullable string column as a serialized value. -/
def opt_str : Option String → PyValue
  | Option.none => PyValue.none
  | some s => PyValue.str s

/-- A nullable integer/datetime column as a serialized value. -/
def opt_int : Option Int → PyValue
  | Option.none => PyValue.none
  | some n => PyValue.int n

/-- A nullable size column as a serialized value. -/
def opt_size : Option Nat → PyValue
  | Option.none => PyValue.none
  | some n => PyValue.int n

/-! ### The Export record (`class Export`) -/

def STATUS_PENDING : String := "pending"

def STATUS_SUCCESSFUL : String := "successful"

def STATUS_FAILED : String := "failed"

/-- The keys of the `EXPORT_STATUS` dict (the three recognized statuses). -/
def EXPORT_STATUS_keys : List String :=
  [STATUS_PENDING, STATUS_SUCCESSFUL, STATUS_FAILED]

/-- `EXPORT_STATUS.get`: the human-readable (`lazy_gettext`) label of a
recognized status, under a translation function `gettext`. -/
def EXPORT_STATUS_get (gettext : String → String) (s : String) :
    Option String :=
  if s = STATUS_PENDING then some (gettext "pending")
  else if s = STATUS_SUCCESSFUL then some (gettext "successful")
  else if s = STATUS_FAILED then some (gettext "failed")
  else none

def DEFAULT_STATUS : String := STATUS_PENDING

/-- `DEFAULT_EXPIRATION = timedelta(days=30)`, in seconds. -/
def DEFAULT_EXPIRATION : Int := 30 * 24 * 60 * 60

/-- One `Export` row (column defaults as in the source), together with the
transient `_file_path` attribute and the inherited `created_at` timestamp. -/
structure Export where
  id : Nat := 0
  created_at : Int := 0
  updated_at : Int := 0
  label : Option String := none
  operation : Option String := none
  creator_id : Option Nat := none
  collection_id : Option Nat := none
  expires_at : Option Int := none
  deleted : Bool := false
  export_status : String := DEFAULT_STATUS
  content_hash : Option String := none
  file_size : Option Nat := none
  file_name : Option String := none
  mime_type : Option String := none
  meta : List (String × String) := []
  _file_path : Option String := none
deriving DecidableEq, Repr

/-- `Export.namespace` (the word is reserved in Lean):
`make_key("role", self.creator_id)`. -/
def Export.storage_namespace (e : Export) : String :=
  make_key [some "role", e.creator_id.map (fun n => toString n)]

/-- Modelled from the spec: `to_dict_dates` of the inherited `DatedModel`
(`aleph.model.common`, not under `src/`) exposes the record's "creation/update
timestamps (inherited record metadata)". -/
def Export.to_dict_dates (e : Export) : PyDict :=
  [("created_at", PyValue.int e.created_at),
   ("updated_at", PyValue.int e.updated_at)]

/-- `Export.to_dict()`: start from the date map, set the human-readable
status label when the status is recognized, then `update` with the column
values in source order — the update writes `export_status` again, with the
raw stored string. -/
def Export.to_dict (e : Export) (gettext : String → String) : PyDict :=
  let data := e.to_dict_dates
  let data :=
    if e.export_status ∈ EXPORT_STATUS_keys then
      dset data "export_status"
        (opt_str (EXPORT_STATUS_get gettext e.export_status))
    else data
  let data := dset data "id" (PyValue.str (toString e.id))
  let data := dset data "label" (opt_str e.label)
  let data := dset data "operation" (opt_str e.operation)
  let data := dset data "creator_id" (stringify_opt_nat e.creator_id)
  let data := dset data "collection_id" (opt_size e.collection_id)
  let data := dset data "expires_at" (opt_int e.expires_at)
  let data := dset data "deleted" (PyValue.bool e.deleted)
  let data := dset data "export_status" (PyValue.str e.export_status)
  let data := dset data "content_hash" (opt_str e.content_hash)
  let data := dset data "file_size" (opt_size e.file_size)
  let data := dset data "file_name" (opt_str e.file_name)
  let data := dset data "meta" (PyValue.dict e.meta)
  data

/-- `Export.set_status(status)`: assign `export_status` only when `status` is
a key of `EXPORT_STATUS`; otherwise do nothing (the `db.session.add` dirty
mark has no counterpart in the record itself). -/
def Export.set_status (e : Export) (status : String) : Export :=
  if status ∈ EXPORT_STATUS_keys then { e with export_status := status }
  else e

/-- `Export.set_filepath(file_path)`: resolve the path (`ensure_path` /
`stat`, which raises if the file is absent — modelled as `none`), record the
safe display name and size, keep the transient path, and store the content
checksum. -/
def Export.set_filepath (e : Export) (fs : FileSystem) (file_path : String) :
    Option Export :=
  match fs.lookup file_path with
  | none => none
  | some contents =>
    some { e with
            file_name := some (safe_filename file_path),
            file_size := some contents.length,
            _file_path := some file_path,
            content_hash := some (checksum contents) }

/-- `Export.publish()`: raise when no transient file path is present; rename
the staged file to the content hash (a `TypeError` if `content_hash` is null,
as `Path(parent, None)` would raise); call `archive.publish` (its failure is
the injected `store_fail`); on success set status `successful`, on store
failure set status `failed` and re-raise the original error.  Returns the
mutated record, the archive state, and the raised error if any. -/
def Export.publish (e : Export) (ar : Archive) (store_fail : Option PyErr) :
    Export × Archive × Option PyErr :=
  match e._file_path with
  | none =>
    (e, ar, some (PyErr.runtimeError "file path not present for export: %r"))
  | some _ =>
    match e.content_hash with
    | none =>
      (e, ar, some (PyErr.typeError
        "argument should be a str or an os.PathLike object"))
    | some ch =>
      match store_fail with
      | none =>
        (e.set_status STATUS_SUCCESSFUL,
          ar.publish e.storage_namespace ch e.mime_type, none)
      | some err => (e.set_status STATUS_FAILED, ar, some err)

/-- `Export._should_delete_publication()`: the live-referrer query — no other
row with the same `content_hash` (SQLAlchemy turns `== None` into `IS NULL`,
so `none = none` matches), `deleted IS NOT TRUE` and a different id. -/
def Export.should_delete_publication (e : Export) (db : List Export) : Bool :=
  let q := ((db.filter (fun x => x.content_hash == e.content_hash)).filter
      (fun x => x.deleted != true)).filter (fun x => x.id != e.id)
  q.head?.isNone

/-- `Export.delete_publication()`: physically delete the blob when no other
live referrer exists, then soft-delete this record. -/
def Export.delete_publication (e : Export) (db : List Export) (ar : Archive) :
    Export × Archive :=
  let ar' := if e.should_delete_publication db then
      ar.delete_publication e.storage_namespace e.content_hash
    else ar
  ({ e with deleted := true }, ar')

/-- `Export.create(...)` (classmethod): build a pending record, stage the
file when `file_path` is given (`none` result = the staging raised), set the
collection and mime type, and compute
`expires_at = now + (expires_after or DEFAULT_EXPIRATION)` — where a `None`
or zero `timedelta` is falsy and yields the default. -/
def Export.create (operation : String) (role_id : Option Nat) (label : String)
    (fs : FileSystem) (now : Int) (new_id : Nat)
    (file_path : Option String) (expires_after : Option Int)
    (collection : Option Nat) (mime_type : Option String) : Option Export :=
  let e0 : Export :=
    { id := new_id, created_at := now, creator_id := role_id,
      operation := some operation, label := some label }
  let staged : Option Export :=
    match file_path with
    | none => some e0
    | some p => e0.set_filepath fs p
  staged.map (fun e =>
    { e with
        collection_id :=
          match collection with
          | some c => some c
          | none => e.collection_id,
        mime_type := mime_type,
        expires_at := some (now +
          match expires_after with
          | none => DEFAULT_EXPIRATION
          | some d => if d = 0 then DEFAULT_EXPIRATION else d) })

/-- `Export.get_expired(deleted=False)` (classmethod): rows with non-null
`expires_at <= now`; when the `deleted` argument is not `None`, additionally
`deleted == <argument>`.  The source's default argument is `some false`. -/
def Export.get_expired (db : List Export) (now : Int)
    (deleted : Option Bool) : List Export :=
  let q := (db.filter (fun x => x.expires_at.isSome)).filter
      (fun x => match x.expires_at with
        | some t => decide (t ≤ now)
        | none => false)
  match deleted with
  | none => q
  | some d => q.filter (fun x => x.deleted == d)

/-- `Export.by_role_id(role_id, deleted=False)` (classmethod): rows of the
given creator, excluding soft-deleted ones unless `deleted` is set, ordered
by `created_at` descending.  The source's default argument is `false`. -/
def Export.by_role_id (db : List Export) (role_id : Nat) (deleted : Bool) :
    List Export :=
  let q := db.filter (fun x => x.creator_id == some role_id)
  let q := if deleted then q else q.filter (fun x => x.deleted == false)
  List.insertionSort (fun a b => b.created_at ≤ a.created_at) q

/-! ### Theorems -/

/-- A sample export used to instantiate theorems with hypotheses. -/
def sample_export : Export :=
  { id := 1, created_at := 10, creator_id := some 7, label := some "L" }

/-- Claim C1: for an export with no staged file (`_file_path` absent),
`publish()` raises the no-file-staged error (the spec's `InvalidStateError`,
a `RuntimeError` in the source) and leaves the record unchanged — in
particular a pending `export_status` stays `pending`, and no status change
happens before the error is raised. -/
theorem publish_no_staged_file_raises (e : Export) (ar : Archive)
    (store_fail : Option PyErr)
    (hfp : e._file_path = none) (hst : e.export_status = STATUS_PENDING) :
    (e.publish ar store_fail).2.2 =
      some (PyErr.runtimeError "file path not present for export: %r") ∧
    (e.publish ar store_fail).1 = e ∧
    (e.publish ar store_fail).1.export_status = STATUS_PENDING := by
  simp [Export.publish, hfp, hst]

theorem publish_no_staged_file_raises_witness :
    (sample_export.publish {} none).2.2 =
      some (PyErr.runtimeError "file path not present for export: %r") ∧
    (sample_export.publish {} none).1 = sample_export ∧
    (sample_export.publish {} none).1.export_status = STATUS_PENDING :=
  publish_no_staged_file_raises sample_export {} none rfl rfl

/-- Claim C3: for an export with a staged file (and its content hash set,
as staging guarantees), a failing store call makes `publish()` set
`export_status` to `failed` and re-raise the very same error value — same
class and message, not wrapped — with the failed status already on the
record when the error propagates. -/
theorem publish_store_failure_sets_failed_and_reraises (e : Export)
    (ar : Archive) (err : PyErr) (fp ch : String)
    (h1 : e._file_path = some fp) (h2 : e.content_hash = some ch) :
    e.publish ar (some err) =
      ({ e with export_status := STATUS_FAILED }, ar, some err) := by
  simp [Export.publish, h1, h2, Export.set_status, EXPORT_STATUS_keys]

/-- A staged sample export, for witnesses. -/
def sample_staged : Export :=
  { sample_export with
      _file_path := some "/tmp/x",
      content_hash := some "h" }

theorem publish_store_failure_witness :
    sample_staged.publish {} (some (PyErr.storeError "boom")) =
      ({ sample_staged with export_status := STATUS_FAILED }, {},
        some (PyErr.storeError "boom")) :=
  publish_store_failure_sets_failed_and_reraises sample_staged {}
    (PyErr.storeError "boom") "/tmp/x" "h" rfl rfl

/-- Claim C7: `set_status` assigns `export_status` exactly for the three
recognized values; any other value raises no error and leaves the record —
every field — unchanged. -/
theorem set_status_recognized_only (e : Export) (s : String) :
    ((s = STATUS_PENDING ∨ s = STATUS_SUCCESSFUL ∨ s = STATUS_FAILED) →
      e.set_status s = { e with export_status := s }) ∧
    (¬(s = STATUS_PENDING ∨ s = STATUS_SUCCESSFUL ∨ s = STATUS_FAILED) →
      e.set_status s = e) := by
  constructor <;> intro h <;>
    simp [Export.set_status, EXPORT_STATUS_keys, h]

theorem set_status_recognized_only_witness :
    (sample_export.set_status STATUS_SUCCESSFUL =
      { sample_export with export_status := STATUS_SUCCESSFUL }) ∧
    (sample_export.set_status "bogus" = sample_export) :=
  ⟨(set_status_recognized_only sample_export STATUS_SUCCESSFUL).1
      (Or.inr (Or.inl rfl)),
    (set_status_recognized_only sample_export "bogus").2 (by decide)⟩

/-- Claim C6 (counterexample): the claim says no exposed operation sequence
ever reverses `export_status`, but `set_status` — a public method of the
module — overwrites the status with any recognized value: on a successful
export, `set_status("pending")` reverts the terminal status to `pending`. -/
theorem status_reversal_counterexample :
    ({ sample_export with export_status := STATUS_SUCCESSFUL } :
        Export).export_status = STATUS_SUCCESSFUL ∧
    (({ sample_export with export_status := STATUS_SUCCESSFUL } :
        Export).set_status STATUS_PENDING).export_status = STATUS_PENDING :=
  ⟨rfl, rfl⟩

/-- Claim C6 (amended): `create` initializes `export_status` to `pending`;
`set_filepath` and `delete_publication` never change it; `publish` only ever
assigns `successful` or `failed` (never `pending`).  The module does not
otherwise enforce the pending→terminal discipline: a direct `set_status`
call can reset any status, including back to `pending`. -/
theorem status_transitions_amended :
    (∀ operation role_id label fs now new_id expires_after collection
        mime_type e,
      Export.create operation role_id label fs now new_id none
          expires_after collection mime_type = some e →
        e.export_status = STATUS_PENDING) ∧
    (∀ (e : Export) fs p e', e.set_filepath fs p = some e' →
      e'.export_status = e.export_status) ∧
    (∀ (e : Export) db ar,
      ((e.delete_publication db ar).1).export_status = e.export_status) ∧
    (∀ (e : Export) ar store_fail,
      ((e.publish ar store_fail).1).export_status = e.export_status ∨
      ((e.publish ar store_fail).1).export_status = STATUS_SUCCESSFUL ∨
      ((e.publish ar store_fail).1).export_status = STATUS_FAILED) := by
  refine ⟨?_, ?_, ?_, ?_⟩
  · intro operation role_id label fs now new_id expires_after collection
      mime_type e h
    simp only [Export.create, Option.map_eq_some'] at h
    obtain ⟨e', he', rfl⟩ := h
    cases he'
    rfl
  · intro e fs p e' h
    simp only [Export.set_filepath] at h
    cases hfs : fs.lookup p <;> rw [hfs] at h
    · cases h
    · cases h
      rfl
  · intro e db ar
    rfl
  · intro e ar store_fail
    cases hfp : e._file_path with
    | none => left; simp [Export.publish, hfp]
    | some fp =>
      cases hch : e.content_hash with
      | none => left; simp [Export.publish, hfp, hch]
      | some ch =>
        cases store_fail with
        | none =>
          right; left
          simp [Export.publish, hfp, hch, Export.set_status,
            EXPORT_STATUS_keys]
        | some err =>
          right; right
          simp [Export.publish, hfp, hch, Export.set_status,
            EXPORT_STATUS_keys]

/-- An empty file system, for witnesses. -/
def fs_empty : FileSystem := ⟨[]⟩

/-- A one-file file system, for witnesses. -/
def fs_one : FileSystem := ⟨[("/tmp/x", [1, 2, 3])]⟩

theorem status_transitions_amended_witness :
    (Export.create "op" (some 7) "L" fs_empty 0 1 none none none none).elim
        False (fun e => e.export_status = STATUS_PENDING) ∧
    (sample_export.set_filepath fs_one "/tmp/x").elim False
        (fun e' => e'.export_status = sample_export.export_status) ∧
    ((sample_export.delete_publication [] {}).1).export_status =
      sample_export.export_status ∧
    (((sample_export.publish {} none).1).export_status =
        sample_export.export_status ∨
      ((sample_export.publish {} none).1).export_status = STATUS_SUCCESSFUL ∨
      ((sample_export.publish {} none).1).export_status = STATUS_FAILED) := by
  refine ⟨?_, ?_, ?_, ?_⟩
  · exact status_transitions_amended.1 "op" (some 7) "L" fs_empty 0 1 none
      none none _ rfl
  · exact status_transitions_amended.2.1 sample_export fs_one "/tmp/x" _ rfl
  · exact status_transitions_amended.2.2.1 sample_export [] {}
  · exact status_transitions_amended.2.2.2 sample_export {} none

/-- Claim C10: every export returned by `create` has a non-null
`expires_at`: it equals the creation time plus the given `expires_after`
duration when that is non-zero, and the 30-day default when `expires_after`
is absent — or zero, since a zero `timedelta` is falsy in
`expires_after or DEFAULT_EXPIRATION`; the never-expires (`none`) case is
unreachable through `create`. -/
theorem create_expires_at_never_null (operation : String)
    (role_id : Option Nat) (label : String) (fs : FileSystem) (now : Int)
    (new_id : Nat) (file_path : Option String) (expires_after : Option Int)
    (collection : Option Nat) (mime_type : Option String) (e : Export)
    (h : Export.create operation role_id label fs now new_id file_path
        expires_after collection mime_type = some e) :
    e.expires_at ≠ none ∧
    (expires_after = none → e.expires_at = some (now + DEFAULT_EXPIRATION)) ∧
    (expires_after = some 0 →
      e.expires_at = some (now + DEFAULT_EXPIRATION)) ∧
    (∀ d, expires_after = some d → d ≠ 0 → e.expires_at = some (now + d)) := by
  simp only [Export.create, Option.map_eq_some'] at h
  obtain ⟨e', _, rfl⟩ := h
  refine ⟨by simp, ?_, ?_, ?_⟩
  · rintro rfl
    rfl
  · rintro rfl
    rfl
  · rintro d rfl hd
    simp [hd]

theorem create_expires_at_never_null_witness :
    (Export.create "op" (some 7) "L" fs_empty 100 1 none (some 0) none
        none).elim False (fun e =>
      e.expires_at ≠ none ∧ e.expires_at = some (100 + DEFAULT_EXPIRATION)) :=
  by
  have h := create_expires_at_never_null "op" (some 7) "L" fs_empty 100 1
    none (some 0) none none _ rfl
  exact ⟨h.1, h.2.2.1 rfl⟩

/-- The live-referrer query is empty iff no other non-deleted record shares
the content hash. -/
lemma should_delete_publication_iff (e : Export) (db : List Export) :
    e.should_delete_publication db = true ↔
      ¬∃ x ∈ db, x.content_hash = e.content_hash ∧ x.deleted ≠ true ∧
        x.id ≠ e.id := by
  simp [Export.should_delete_publication, Option.isNone_iff_eq_none,
    List.head?_eq_none_iff, List.filter_eq_nil_iff, List.mem_filter,
    bne_iff_ne, beq_iff_eq]
  constructor
  · intro h x hx hch hd
    by_cases hid : x.id = e.id
    · exact hid
    · exact absurd hch (h x hx hid hd)
  · intro h x hx hid hd hch
    exact hid (h x hx hch hd)

/-- The live-referrer query is non-empty iff some other non-deleted record
shares the content hash. -/
lemma should_delete_publication_false_iff (e : Export) (db : List Export) :
    e.should_delete_publication db = false ↔
      ∃ x ∈ db, x.content_hash = e.content_hash ∧ x.deleted ≠ true ∧
        x.id ≠ e.id := by
  rw [Bool.eq_false_iff, Ne, should_delete_publication_iff, not_not]

/-- Claim C2: `delete_publication` always soft-deletes the record (only the
`deleted` flag changes), and it issues the physical
`archive.delete_publication(namespace, content_hash)` call if and only if no
other record in the table shares the content hash while being non-deleted
and of a different id. -/
theorem delete_publication_refcount (e : Export) (db : List Export)
    (ar : Archive) :
    (e.delete_publication db ar).1 = { e with deleted := true } ∧
    ((e.delete_publication db ar).2.delete_calls =
        ar.delete_calls ++ [(e.storage_namespace, e.content_hash)] ↔
      ¬∃ x ∈ db, x.content_hash = e.content_hash ∧ x.deleted ≠ true ∧
        x.id ≠ e.id) ∧
    ((e.delete_publication db ar).2.delete_calls = ar.delete_calls ↔
      ∃ x ∈ db, x.content_hash = e.content_hash ∧ x.deleted ≠ true ∧
        x.id ≠ e.id) := by
  have hne : ar.delete_calls ++ [(e.storage_namespace, e.content_hash)] ≠
      ar.delete_calls := by
    intro h
    simpa using congrArg List.length h
  by_cases hq : e.should_delete_publication db = true
  · have h1 := (should_delete_publication_iff e db).mp hq
    refine ⟨rfl, ?_, ?_⟩
    · simp only [Export.delete_publication, hq, if_true,
        Archive.delete_publication]
      exact iff_of_true trivial h1
    · simp only [Export.delete_publication, hq, if_true,
        Archive.delete_publication]
      exact iff_of_false hne (fun hex => h1 hex)
  · have hq' : e.should_delete_publication db = false := by
      simpa using hq
    have h1 := (should_delete_publication_false_iff e db).mp hq'
    refine ⟨rfl, ?_, ?_⟩
    · simp only [Export.delete_publication, hq', Bool.false_eq_true,
        if_false]
      exact iff_of_false (fun h => hne h.symm) (fun hn => hn h1)
    · simp only [Export.delete_publication, hq', Bool.false_eq_true,
        if_false]
      exact iff_of_true trivial h1

/-- Claim C8: with its default argument (`deleted=False`), `get_expired`
returns exactly the records whose `expires_at` is non-null and at most `now`
and whose `deleted` flag is false; a record with null `expires_at` is never
returned. -/
theorem get_expired_default_members (db : List Export) (now : Int)
    (x : Export) :
    x ∈ Export.get_expired db now (some false) ↔
      x ∈ db ∧ (∃ t, x.expires_at = some t ∧ t ≤ now) ∧
        x.deleted = false := by
  simp only [Export.get_expired, List.mem_filter, Option.isSome_iff_exists,
    beq_iff_eq, decide_eq_true_eq]
  constructor
  · rintro ⟨⟨⟨hx, t, ht⟩, hle⟩, hd⟩
    rw [ht] at hle
    exact ⟨hx, ⟨t, ht, by simpa using hle⟩, hd⟩
  · rintro ⟨hx, ⟨t, ht, hle⟩, hd⟩
    exact ⟨⟨⟨hx, t, ht⟩, by simp [ht, hle]⟩, hd⟩

/-- The descending-`created_at` ordering used by `by_role_id` is total. -/
instance : IsTotal Export (fun a b => b.created_at ≤ a.created_at) :=
  ⟨fun a b => le_total b.created_at a.created_at⟩

/-- The descending-`created_at` ordering used by `by_role_id` is
transitive. -/
instance : IsTrans Export (fun a b => b.created_at ≤ a.created_at) :=
  ⟨fun _ _ _ hab hbc => le_trans hbc hab⟩

/-- Claim C9: with its default argument (`deleted=False`), `by_role_id`
returns exactly the records whose `creator_id` is the given role and whose
`deleted` flag is not true, ordered by `created_at` descending (newest
first). -/
theorem by_role_id_default_spec (db : List Export) (role_id : Nat) :
    (∀ x, x ∈ Export.by_role_id db role_id false ↔
      x ∈ db ∧ x.creator_id = some role_id ∧ x.deleted = false) ∧
    List.Sorted (fun a b => b.created_at ≤ a.created_at)
      (Export.by_role_id db role_id false) := by
  constructor
  · intro x
    simp only [Export.by_role_id, List.mem_insertionSort, List.mem_filter,
      beq_iff_eq, decide_eq_true_eq, if_false, Bool.false_eq_true, and_assoc]
  · exact List.sorted_insertionSort _ _

/-- Blob keys published into the archive are present afterwards. -/
lemma publish_mem_blobs_self (ar : Archive) (ns fn : String)
    (m : Option String) : (ns, fn) ∈ (ar.publish ns fn m).blobs := by
  by_cases h : (ns, fn) ∈ ar.blobs <;> simp [Archive.publish, h]

/-- Publishing preserves blobs already in the archive. -/
lemma publish_mem_blobs_mono (ar : Archive) (k : String × String)
    (ns fn : String) (m : Option String) (h : k ∈ ar.blobs) :
    k ∈ (ar.publish ns fn m).blobs := by
  by_cases hin : (ns, fn) ∈ ar.blobs <;> simp [Archive.publish, hin, h]

/-- A physically deleted blob key is gone from the archive. -/
lemma delete_publication_not_mem_blobs (ar : Archive) (ns ch : String) :
    (ns, ch) ∉ (ar.delete_publication ns (some ch)).blobs := by
  simp [Archive.delete_publication, List.mem_filter]

/-- Claim C5: two exports of the same creator that stage byte-identical
files get equal content hashes; after both publish successfully, calling
`delete_publication` on one while the other is live and not deleted leaves
the shared blob in the content store, and calling it on the second — no
other live referrer remaining — physically removes it. -/
theorem dedup_shared_blob_lifecycle
    (fs : FileSystem) (p1 p2 : String) (bytes : List Nat)
    (e1 e2 f1 f2 g1 g2 : Export) (ar0 ar1 ar2 : Archive)
    (hb1 : fs.lookup p1 = some bytes) (hb2 : fs.lookup p2 = some bytes)
    (hf1 : e1.set_filepath fs p1 = some f1)
    (hf2 : e2.set_filepath fs p2 = some f2)
    (hcr : e1.creator_id = e2.creator_id)
    (hid : e1.id ≠ e2.id)
    (hd1 : e1.deleted = false) (hd2 : e2.deleted = false)
    (hp1 : f1.publish ar0 none = (g1, ar1, none))
    (hp2 : f2.publish ar1 none = (g2, ar2, none)) :
    f1.content_hash = f2.content_hash ∧
    (g1.storage_namespace, checksum bytes) ∈
      ((g1.delete_publication [g1, g2] ar2).2).blobs ∧
    (g2.storage_namespace, checksum bytes) ∉
      ((g2.delete_publication
          [(g1.delete_publication [g1, g2] ar2).1, g2]
          (g1.delete_publication [g1, g2] ar2).2).2).blobs := by
  simp only [Export.set_filepath, hb1] at hf1
  simp only [Export.set_filepath, hb2] at hf2
  obtain rfl := Option.some.inj hf1
  obtain rfl := Option.some.inj hf2
  simp [Export.publish, Export.set_status, EXPORT_STATUS_keys,
    STATUS_PENDING, STATUS_SUCCESSFUL, STATUS_FAILED, Prod.mk.injEq]
    at hp1 hp2
  obtain ⟨rfl, rfl⟩ := hp1
  obtain ⟨rfl, rfl⟩ := hp2
  have hid2 : e2.id ≠ e1.id := Ne.symm hid
  refine ⟨rfl, ?_, ?_⟩
  · simp [Export.delete_publication, Export.should_delete_publication,
      Export.storage_namespace, hd1, hd2, hcr, hid2]
    exact publish_mem_blobs_mono _ _ _ _ _ (publish_mem_blobs_self _ _ _ _)
  · simp [Export.delete_publication, Export.should_delete_publication,
      Export.storage_namespace, hd1, hd2, hcr, hid2]
    exact delete_publication_not_mem_blobs _ _ _

/-- A two-file file system with byte-identical contents, for the C5
witness. -/
def fs_two : FileSystem := ⟨[("/a", [1, 2]), ("/b", [1, 2])]⟩

/-- First sample export of creator 7, for the C5 witness. -/
def c5_e1 : Export := { id := 1, creator_id := some 7 }

/-- Second sample export of creator 7, for the C5 witness. -/
def c5_e2 : Export := { id := 2, creator_id := some 7 }

/-- `c5_e1` with `/a` staged. -/
def c5_f1 : Export := (c5_e1.set_filepath fs_two "/a").getD c5_e1

/-- `c5_e2` with `/b` staged. -/
def c5_f2 : Export := (c5_e2.set_filepath fs_two "/b").getD c5_e2

/-- `c5_f1` after a successful publish into an empty archive. -/
def c5_g1 : Export := (c5_f1.publish {} none).1

/-- The archive after `c5_f1` published. -/
def c5_ar1 : Archive := (c5_f1.publish {} none).2.1

/-- `c5_f2` after a successful publish. -/
def c5_g2 : Export := (c5_f2.publish c5_ar1 none).1

/-- The archive after both published. -/
def c5_ar2 : Archive := (c5_f2.publish c5_ar1 none).2.1

theorem dedup_shared_blob_lifecycle_witness :
    c5_f1.content_hash = c5_f2.content_hash ∧
    (c5_g1.storage_namespace, checksum [1, 2]) ∈
      ((c5_g1.delete_publication [c5_g1, c5_g2] c5_ar2).2).blobs ∧
    (c5_g2.storage_namespace, checksum [1, 2]) ∉
      ((c5_g2.delete_publication
          [(c5_g1.delete_publication [c5_g1, c5_g2] c5_ar2).1, c5_g2]
          (c5_g1.delete_publication [c5_g1, c5_g2] c5_ar2).2).2).blobs :=
  dedup_shared_blob_lifecycle fs_two "/a" "/b" [1, 2] c5_e1 c5_e2 c5_f1
    c5_f2 c5_g1 c5_g2 {} c5_ar1 c5_ar2 rfl rfl rfl rfl rfl (by decide)
    rfl rfl rfl rfl

/-- A translation under which display labels differ from the raw status
strings (a non-English locale). -/
def gettext_de : String → String := fun s => "de:" ++ s

/-- Claim C4 (divergence witness): serializing a pending export under a
locale whose label differs from the raw status still exposes the raw string
`"pending"` — the recognized-label assignment in `to_dict` is overwritten by
the subsequent `update` — even though the label lookup yields `"de:pending"`;
the keys meanwhile never include `_file_path`. -/
theorem to_dict_exposes_raw_status :
    dget (sample_export.to_dict gettext_de) "export_status" =
      some (PyValue.str "pending") ∧
    EXPORT_STATUS_get gettext_de sample_export.export_status =
      some "de:pending" ∧
    ("de:pending" : String) ≠ "pending" ∧
    "_file_path" ∉ (sample_export.to_dict gettext_de).map Prod.fst := by
  refine ⟨rfl, rfl, by decide, by decide⟩

end Aleph
